import Mathlib

set_option maxRecDepth 8000

/-!
Shallow embedding of the CNPJ validation and normalization routines of
`search_cnpj.py` (functions `validator_cnpj`, its inner `calc_digit`, and
`cnpj_format`).  Strings are modelled as `List Char`; Python string indexing
and `int()` conversion, which may raise, are modelled in the `Option` monad.
-/

/-- `\d` of the regular expressions used by the module, restricted to the
ASCII digits the specification talks about. -/
def isDigitChar (c : Char) : Bool := decide ('0' ≤ c) && decide (c ≤ '9')

/-- The masked alternative `\d{2}\.\d{3}\.\d{3}/\d{4}-\d{2}` of the regex
in `validator_cnpj`, matched against the whole string (`re.fullmatch`). -/
def matchesMasked : List Char → Bool
  | [a1, a2, p1, a3, a4, a5, p2, a6, a7, a8, p3, a9, a10, a11, a12, p4, a13, a14] =>
      isDigitChar a1 && isDigitChar a2 && p1 == '.' &&
      isDigitChar a3 && isDigitChar a4 && isDigitChar a5 && p2 == '.' &&
      isDigitChar a6 && isDigitChar a7 && isDigitChar a8 && p3 == '/' &&
      isDigitChar a9 && isDigitChar a10 && isDigitChar a11 && isDigitChar a12 && p4 == '-' &&
      isDigitChar a13 && isDigitChar a14
  | _ => false

/-- The unmasked alternative `\d{14}` of the regex in `validator_cnpj`. -/
def matchesUnmasked (s : List Char) : Bool := s.length == 14 && s.all isDigitChar

/-- The whole pattern `^(\d{2}\.\d{3}\.\d{3}/\d{4}-\d{2}|\d{14})$` under
`re.fullmatch`. -/
def fullmatchPattern (s : List Char) : Bool := matchesMasked s || matchesUnmasked s

/-- `cnpj_format` / the `re.sub(r'\D', '', cnpj)` normalization: keep only
the digit characters, in order. -/
def cnpj_format (s : List Char) : List Char := s.filter isDigitChar

/-- Python `int(d)` for a single character: the digit value, or an error
(`ValueError`) when the character is not a digit. -/
def charToInt (c : Char) : Option Nat :=
  if isDigitChar c then some (c.toNat - 48) else none

/-- Python list indexing `xs[k]`: negative indices address the list from its
end; an index out of range raises `IndexError` (modelled as `none`). -/
def pyIndex (xs : List Nat) (k : Int) : Option Nat :=
  if 0 ≤ k then xs.get? k.toNat
  else if 0 ≤ k + xs.length then xs.get? (k + xs.length).toNat
  else none

/-- The fixed weight table of `calc_digit`. -/
def weights : List Nat := [6, 5, 4, 3, 2, 9, 8, 7, 6, 5, 4, 3, 2]

/-- The sum `sum(int(d) * weights[i + len(weights) - len(cnpj_partial)]
for i, d in enumerate(cnpj_partial))` inside `calc_digit`: `plen` is the
length of the full argument, `i` the running `enumerate` index. -/
def calcTotalAux (plen : Nat) : List Char → Nat → Option Nat
  | [], _ => some 0
  | d :: rest, i => do
      let dv ← charToInt d
      let w ← pyIndex weights ((i : Int) + weights.length - plen)
      let t ← calcTotalAux plen rest (i + 1)
      pure (dv * w + t)

/-- `calc_digit(cnpj_partial)`: weighted sum mod 11; `'0'` when the
remainder is below 2, otherwise the decimal rendering (`str`) of
`11 - remainder`. -/
def calc_digit (p : List Char) : Option (List Char) := do
  let total ← calcTotalAux p.length p 0
  let rest := total % 11
  pure (if rest < 2 then ['0'] else Nat.toDigits 10 (11 - rest))

/-- `validator_cnpj(cnpj)`: structural regex check, rejection of fourteen
identical digits (`cnpj_numbers == cnpj_numbers[0] * 14`), then comparison
of the last two digits (`cnpj_numbers[-2:]`) with the two computed check
digits. -/
def validator_cnpj (cnpj : List Char) : Option Bool :=
  if fullmatchPattern cnpj then do
    let ns := cnpj_format cnpj
    let c0 ← ns.head?
    if ns = List.replicate 14 c0 then some false
    else do
      let d1 ← calc_digit (ns.take 12)
      let d2 ← calc_digit (ns.take 12 ++ d1)
      some (ns.drop (ns.length - 2) == d1 ++ d2)
  else some false

/-- The numeric value of a digit character. -/
def digitVal (c : Char) : Nat := c.toNat - 48

/-- Modelled from the spec (§4.1 Step 3): the canonical weight cycle
`[6,5,4,3,2,9,8,7,6,5,4,3,2]`. -/
def specWeights : List Nat := [6, 5, 4, 3, 2, 9, 8, 7, 6, 5, 4, 3, 2]

/-- Modelled from the spec (§4.1 Step 3): right-align the weight table
against the input digits, multiply, sum, take the sum modulo 11; remainder
0 or 1 gives check digit 0, otherwise the check digit is 11 minus the
remainder. -/
def specCheckDigit (ds : List Nat) : Nat :=
  let r := (List.zipWith (fun a b => a * b) ds.reverse specWeights.reverse).sum % 11
  if r < 2 then 0 else 11 - r

/-- Modelled from the spec (§4.1 Step 4): the expected two-character check
suffix for a 12-digit base: the first check digit from the base, the second
from the base with the first appended. -/
def specSuffix (base : List Nat) : List Char :=
  [Char.ofNat (48 + specCheckDigit base),
   Char.ofNat (48 + specCheckDigit (base ++ [specCheckDigit base]))]


lemma charToInt_digit (c : Char) (h : isDigitChar c = true) : charToInt c = some (digitVal c) := by
  simp [charToInt, h, digitVal]

lemma natStr_single : ∀ n, n < 10 → Nat.toDigits 10 n = [Char.ofNat (48 + n)] := by decide

lemma calcResultEq (a b : Nat) (hab : a = b) :
    (if a % 11 < 2 then ['0'] else Nat.toDigits 10 (11 - a % 11)) =
      [Char.ofNat (48 + (if b % 11 < 2 then 0 else 11 - b % 11))] := by
  subst hab
  rcases Nat.lt_or_ge (a % 11) 2 with h | h
  · simp [h]
  · have hlt : a % 11 < 11 := Nat.mod_lt _ (by norm_num)
    rw [if_neg (by omega), if_neg (by omega)]
    exact natStr_single _ (by omega)

lemma calc_digit_spec12 (b1 b2 b3 b4 b5 b6 b7 b8 b9 b10 b11 b12 : Char)
    (h1 : isDigitChar b1 = true) (h2 : isDigitChar b2 = true) (h3 : isDigitChar b3 = true)
    (h4 : isDigitChar b4 = true) (h5 : isDigitChar b5 = true) (h6 : isDigitChar b6 = true)
    (h7 : isDigitChar b7 = true) (h8 : isDigitChar b8 = true) (h9 : isDigitChar b9 = true)
    (h10 : isDigitChar b10 = true) (h11 : isDigitChar b11 = true) (h12 : isDigitChar b12 = true) :
    calc_digit [b1, b2, b3, b4, b5, b6, b7, b8, b9, b10, b11, b12] =
      some [Char.ofNat (48 + specCheckDigit
        ([b1, b2, b3, b4, b5, b6, b7, b8, b9, b10, b11, b12].map digitVal))] := by
  have e1 := charToInt_digit b1 h1
  have e2 := charToInt_digit b2 h2
  have e3 := charToInt_digit b3 h3
  have e4 := charToInt_digit b4 h4
  have e5 := charToInt_digit b5 h5
  have e6 := charToInt_digit b6 h6
  have e7 := charToInt_digit b7 h7
  have e8 := charToInt_digit b8 h8
  have e9 := charToInt_digit b9 h9
  have e10 := charToInt_digit b10 h10
  have e11 := charToInt_digit b11 h11
  have e12 := charToInt_digit b12 h12
  have hwl : weights.length = 13 := by decide
  have q1 : pyIndex weights 1 = some 5 := by decide
  have q2 : pyIndex weights 2 = some 4 := by decide
  have q3 : pyIndex weights 3 = some 3 := by decide
  have q4 : pyIndex weights 4 = some 2 := by decide
  have q5 : pyIndex weights 5 = some 9 := by decide
  have q6 : pyIndex weights 6 = some 8 := by decide
  have q7 : pyIndex weights 7 = some 7 := by decide
  have q8 : pyIndex weights 8 = some 6 := by decide
  have q9 : pyIndex weights 9 = some 5 := by decide
  have q10 : pyIndex weights 10 = some 4 := by decide
  have q11 : pyIndex weights 11 = some 3 := by decide
  have q12 : pyIndex weights 12 = some 2 := by decide
  norm_num [calc_digit, calcTotalAux, hwl, e1, e2, e3, e4, e5, e6, e7, e8, e9, e10, e11, e12,
    q1, q2, q3, q4, q5, q6, q7, q8, q9, q10, q11, q12]
  simp only [specCheckDigit, specWeights, List.map, List.reverse_cons, List.reverse_nil,
    List.nil_append, List.cons_append, List.zipWith, List.sum_cons, List.sum_nil]
  exact calcResultEq _ _ (by ring)

lemma calc_digit_spec13 (b1 b2 b3 b4 b5 b6 b7 b8 b9 b10 b11 b12 b13 : Char)
    (h1 : isDigitChar b1 = true) (h2 : isDigitChar b2 = true) (h3 : isDigitChar b3 = true)
    (h4 : isDigitChar b4 = true) (h5 : isDigitChar b5 = true) (h6 : isDigitChar b6 = true)
    (h7 : isDigitChar b7 = true) (h8 : isDigitChar b8 = true) (h9 : isDigitChar b9 = true)
    (h10 : isDigitChar b10 = true) (h11 : isDigitChar b11 = true) (h12 : isDigitChar b12 = true)
    (h13 : isDigitChar b13 = true) :
    calc_digit [b1, b2, b3, b4, b5, b6, b7, b8, b9, b10, b11, b12, b13] =
      some [Char.ofNat (48 + specCheckDigit
        ([b1, b2, b3, b4, b5, b6, b7, b8, b9, b10, b11, b12, b13].map digitVal))] := by
  have e1 := charToInt_digit b1 h1
  have e2 := charToInt_digit b2 h2
  have e3 := charToInt_digit b3 h3
  have e4 := charToInt_digit b4 h4
  have e5 := charToInt_digit b5 h5
  have e6 := charToInt_digit b6 h6
  have e7 := charToInt_digit b7 h7
  have e8 := charToInt_digit b8 h8
  have e9 := charToInt_digit b9 h9
  have e10 := charToInt_digit b10 h10
  have e11 := charToInt_digit b11 h11
  have e12 := charToInt_digit b12 h12
  have e13 := charToInt_digit b13 h13
  have hwl : weights.length = 13 := by decide
  have q0 : pyIndex weights 0 = some 6 := by decide
  have q1 : pyIndex weights 1 = some 5 := by decide
  have q2 : pyIndex weights 2 = some 4 := by decide
  have q3 : pyIndex weights 3 = some 3 := by decide
  have q4 : pyIndex weights 4 = some 2 := by decide
  have q5 : pyIndex weights 5 = some 9 := by decide
  have q6 : pyIndex weights 6 = some 8 := by decide
  have q7 : pyIndex weights 7 = some 7 := by decide
  have q8 : pyIndex weights 8 = some 6 := by decide
  have q9 : pyIndex weights 9 = some 5 := by decide
  have q10 : pyIndex weights 10 = some 4 := by decide
  have q11 : pyIndex weights 11 = some 3 := by decide
  have q12 : pyIndex weights 12 = some 2 := by decide
  norm_num [calc_digit, calcTotalAux, hwl, e1, e2, e3, e4, e5, e6, e7, e8, e9, e10, e11, e12, e13,
    q0, q1, q2, q3, q4, q5, q6, q7, q8, q9, q10, q11, q12]
  simp only [specCheckDigit, specWeights, List.map, List.reverse_cons, List.reverse_nil,
    List.nil_append, List.cons_append, List.zipWith, List.sum_cons, List.sum_nil]
  exact calcResultEq _ _ (by ring)

lemma digitChar_isDigit : ∀ d, d < 10 → isDigitChar (Char.ofNat (48 + d)) = true := by decide

lemma digitChar_val : ∀ d, d < 10 → digitVal (Char.ofNat (48 + d)) = d := by decide

lemma specCheckDigit_lt (ds : List Nat) : specCheckDigit ds < 10 := by
  simp only [specCheckDigit]
  split <;> omega

lemma validator_eq_explicit (s : List Char)
    (b1 b2 b3 b4 b5 b6 b7 b8 b9 b10 b11 b12 b13 b14 : Char)
    (hm : fullmatchPattern s = true)
    (hns : cnpj_format s = [b1, b2, b3, b4, b5, b6, b7, b8, b9, b10, b11, b12, b13, b14])
    (h1 : isDigitChar b1 = true) (h2 : isDigitChar b2 = true) (h3 : isDigitChar b3 = true)
    (h4 : isDigitChar b4 = true) (h5 : isDigitChar b5 = true) (h6 : isDigitChar b6 = true)
    (h7 : isDigitChar b7 = true) (h8 : isDigitChar b8 = true) (h9 : isDigitChar b9 = true)
    (h10 : isDigitChar b10 = true) (h11 : isDigitChar b11 = true) (h12 : isDigitChar b12 = true)
    (h13 : isDigitChar b13 = true) (h14 : isDigitChar b14 = true) :
    validator_cnpj s =
      some (!([b1, b2, b3, b4, b5, b6, b7, b8, b9, b10, b11, b12, b13, b14] ==
                List.replicate 14 b1) &&
            ([b13, b14] ==
              specSuffix ([b1, b2, b3, b4, b5, b6, b7, b8, b9, b10, b11, b12].map digitVal))) := by
  have hlt1 : specCheckDigit ([b1, b2, b3, b4, b5, b6, b7, b8, b9, b10, b11, b12].map digitVal) < 10 :=
    specCheckDigit_lt _
  have hdc : isDigitChar (Char.ofNat (48 +
      specCheckDigit ([b1, b2, b3, b4, b5, b6, b7, b8, b9, b10, b11, b12].map digitVal))) = true :=
    digitChar_isDigit _ hlt1
  have hval : digitVal (Char.ofNat (48 +
      specCheckDigit ([b1, b2, b3, b4, b5, b6, b7, b8, b9, b10, b11, b12].map digitVal))) =
      specCheckDigit ([b1, b2, b3, b4, b5, b6, b7, b8, b9, b10, b11, b12].map digitVal) :=
    digitChar_val _ hlt1
  have hcd1 := calc_digit_spec12 b1 b2 b3 b4 b5 b6 b7 b8 b9 b10 b11 b12
    h1 h2 h3 h4 h5 h6 h7 h8 h9 h10 h11 h12
  have hcd2 := calc_digit_spec13 b1 b2 b3 b4 b5 b6 b7 b8 b9 b10 b11 b12
    (Char.ofNat (48 + specCheckDigit ([b1, b2, b3, b4, b5, b6, b7, b8, b9, b10, b11, b12].map digitVal)))
    h1 h2 h3 h4 h5 h6 h7 h8 h9 h10 h11 h12 hdc
  simp only [List.map] at hval hcd1 hcd2
  simp only [hval] at hcd2
  have htake : List.take 12 [b1, b2, b3, b4, b5, b6, b7, b8, b9, b10, b11, b12, b13, b14] =
      [b1, b2, b3, b4, b5, b6, b7, b8, b9, b10, b11, b12] := rfl
  have hdrop : List.drop
        (List.length [b1, b2, b3, b4, b5, b6, b7, b8, b9, b10, b11, b12, b13, b14] - 2)
        [b1, b2, b3, b4, b5, b6, b7, b8, b9, b10, b11, b12, b13, b14] = [b13, b14] := rfl
  simp only [validator_cnpj, hm, if_true, hns, Option.bind_eq_bind, List.head?_cons,
    Option.some_bind, htake, hdrop, List.cons_append, List.nil_append, hcd1, hcd2]
  split
  · rename_i hrep
    simp [hrep]
  · rename_i hrep
    have hb : ([b1, b2, b3, b4, b5, b6, b7, b8, b9, b10, b11, b12, b13, b14] ==
        List.replicate 14 b1) = false := beq_eq_false_iff_ne.mpr hrep
    simp only [hb, Bool.not_false, Bool.true_and, specSuffix, List.map, List.cons_append,
      List.nil_append]

lemma exists_of_length12 (l : List Char) (h : l.length = 12) :
    ∃ b1 b2 b3 b4 b5 b6 b7 b8 b9 b10 b11 b12 : Char, l = [b1, b2, b3, b4, b5, b6, b7, b8, b9, b10, b11, b12] := by
  rcases l with _ | ⟨b1, l⟩
  · simp only [List.length_cons, List.length_nil] at h
    omega
  rcases l with _ | ⟨b2, l⟩
  · simp only [List.length_cons, List.length_nil] at h
    omega
  rcases l with _ | ⟨b3, l⟩
  · simp only [List.length_cons, List.length_nil] at h
    omega
  rcases l with _ | ⟨b4, l⟩
  · simp only [List.length_cons, List.length_nil] at h
    omega
  rcases l with _ | ⟨b5, l⟩
  · simp only [List.length_cons, List.length_nil] at h
    omega
  rcases l with _ | ⟨b6, l⟩
  · simp only [List.length_cons, List.length_nil] at h
    omega
  rcases l with _ | ⟨b7, l⟩
  · simp only [List.length_cons, List.length_nil] at h
    omega
  rcases l with _ | ⟨b8, l⟩
  · simp only [List.length_cons, List.length_nil] at h
    omega
  rcases l with _ | ⟨b9, l⟩
  · simp only [List.length_cons, List.length_nil] at h
    omega
  rcases l with _ | ⟨b10, l⟩
  · simp only [List.length_cons, List.length_nil] at h
    omega
  rcases l with _ | ⟨b11, l⟩
  · simp only [List.length_cons, List.length_nil] at h
    omega
  rcases l with _ | ⟨b12, l⟩
  · simp only [List.length_cons, List.length_nil] at h
    omega
  rcases l with _ | ⟨b13, l⟩
  · exact ⟨b1, b2, b3, b4, b5, b6, b7, b8, b9, b10, b11, b12, rfl⟩
  · simp only [List.length_cons, List.length_nil] at h
    omega

lemma exists_of_length13 (l : List Char) (h : l.length = 13) :
    ∃ b1 b2 b3 b4 b5 b6 b7 b8 b9 b10 b11 b12 b13 : Char, l = [b1, b2, b3, b4, b5, b6, b7, b8, b9, b10, b11, b12, b13] := by
  rcases l with _ | ⟨b1, l⟩
  · simp only [List.length_cons, List.length_nil] at h
    omega
  rcases l with _ | ⟨b2, l⟩
  · simp only [List.length_cons, List.length_nil] at h
    omega
  rcases l with _ | ⟨b3, l⟩
  · simp only [List.length_cons, List.length_nil] at h
    omega
  rcases l with _ | ⟨b4, l⟩
  · simp only [List.length_cons, List.length_nil] at h
    omega
  rcases l with _ | ⟨b5, l⟩
  · simp only [List.length_cons, List.length_nil] at h
    omega
  rcases l with _ | ⟨b6, l⟩
  · simp only [List.length_cons, List.length_nil] at h
    omega
  rcases l with _ | ⟨b7, l⟩
  · simp only [List.length_cons, List.length_nil] at h
    omega
  rcases l with _ | ⟨b8, l⟩
  · simp only [List.length_cons, List.length_nil] at h
    omega
  rcases l with _ | ⟨b9, l⟩
  · simp only [List.length_cons, List.length_nil] at h
    omega
  rcases l with _ | ⟨b10, l⟩
  · simp only [List.length_cons, List.length_nil] at h
    omega
  rcases l with _ | ⟨b11, l⟩
  · simp only [List.length_cons, List.length_nil] at h
    omega
  rcases l with _ | ⟨b12, l⟩
  · simp only [List.length_cons, List.length_nil] at h
    omega
  rcases l with _ | ⟨b13, l⟩
  · simp only [List.length_cons, List.length_nil] at h
    omega
  rcases l with _ | ⟨b14, l⟩
  · exact ⟨b1, b2, b3, b4, b5, b6, b7, b8, b9, b10, b11, b12, b13, rfl⟩
  · simp only [List.length_cons, List.length_nil] at h
    omega

lemma exists_of_length14 (l : List Char) (h : l.length = 14) :
    ∃ b1 b2 b3 b4 b5 b6 b7 b8 b9 b10 b11 b12 b13 b14 : Char, l = [b1, b2, b3, b4, b5, b6, b7, b8, b9, b10, b11, b12, b13, b14] := by
  rcases l with _ | ⟨b1, l⟩
  · simp only [List.length_cons, List.length_nil] at h
    omega
  rcases l with _ | ⟨b2, l⟩
  · simp only [List.length_cons, List.length_nil] at h
    omega
  rcases l with _ | ⟨b3, l⟩
  · simp only [List.length_cons, List.length_nil] at h
    omega
  rcases l with _ | ⟨b4, l⟩
  · simp only [List.length_cons, List.length_nil] at h
    omega
  rcases l with _ | ⟨b5, l⟩
  · simp only [List.length_cons, List.length_nil] at h
    omega
  rcases l with _ | ⟨b6, l⟩
  · simp only [List.length_cons, List.length_nil] at h
    omega
  rcases l with _ | ⟨b7, l⟩
  · simp only [List.length_cons, List.length_nil] at h
    omega
  rcases l with _ | ⟨b8, l⟩
  · simp only [List.length_cons, List.length_nil] at h
    omega
  rcases l with _ | ⟨b9, l⟩
  · simp only [List.length_cons, List.length_nil] at h
    omega
  rcases l with _ | ⟨b10, l⟩
  · simp only [List.length_cons, List.length_nil] at h
    omega
  rcases l with _ | ⟨b11, l⟩
  · simp only [List.length_cons, List.length_nil] at h
    omega
  rcases l with _ | ⟨b12, l⟩
  · simp only [List.length_cons, List.length_nil] at h
    omega
  rcases l with _ | ⟨b13, l⟩
  · simp only [List.length_cons, List.length_nil] at h
    omega
  rcases l with _ | ⟨b14, l⟩
  · simp only [List.length_cons, List.length_nil] at h
    omega
  rcases l with _ | ⟨b15, l⟩
  · exact ⟨b1, b2, b3, b4, b5, b6, b7, b8, b9, b10, b11, b12, b13, b14, rfl⟩
  · simp only [List.length_cons, List.length_nil] at h
    omega

lemma masked_filter (s : List Char) (h : matchesMasked s = true) :
    ∃ b1 b2 b3 b4 b5 b6 b7 b8 b9 b10 b11 b12 b13 b14 : Char,
      cnpj_format s = [b1, b2, b3, b4, b5, b6, b7, b8, b9, b10, b11, b12, b13, b14] ∧
      ∀ c ∈ [b1, b2, b3, b4, b5, b6, b7, b8, b9, b10, b11, b12, b13, b14], isDigitChar c = true := by
  unfold matchesMasked at h
  split at h
  · rename_i a1 a2 p1 a3 a4 a5 p2 a6 a7 a8 p3 a9 a10 a11 a12 p4 a13 a14
    simp only [Bool.and_eq_true, beq_iff_eq, and_assoc] at h
    obtain ⟨h1, h2, hp1, h3, h4, h5, hp2, h6, h7, h8, hp3, h9, h10, h11, h12, hp4, h13, h14⟩ := h
    subst hp1; subst hp2; subst hp3; subst hp4
    refine ⟨a1, a2, a3, a4, a5, a6, a7, a8, a9, a10, a11, a12, a13, a14, ?_, ?_⟩
    · have hdot : isDigitChar '.' = false := by decide
      have hslash : isDigitChar '/' = false := by decide
      have hdash : isDigitChar '-' = false := by decide
      simp [cnpj_format, List.filter, h1, h2, h3, h4, h5, h6, h7, h8, h9, h10, h11, h12, h13, h14,
        hdot, hslash, hdash]
    · simp_all
  · exact absurd h (by simp)

lemma unmasked_filter (s : List Char) (h : matchesUnmasked s = true) :
    cnpj_format s = s ∧ s.length = 14 ∧ ∀ c ∈ s, isDigitChar c = true := by
  simp only [matchesUnmasked, Bool.and_eq_true, beq_iff_eq, List.all_eq_true] at h
  obtain ⟨hlen, hall⟩ := h
  exact ⟨List.filter_eq_self.mpr hall, hlen, hall⟩

lemma fullmatch_digits (s : List Char) (hm : fullmatchPattern s = true) :
    ∃ b1 b2 b3 b4 b5 b6 b7 b8 b9 b10 b11 b12 b13 b14 : Char,
      cnpj_format s = [b1, b2, b3, b4, b5, b6, b7, b8, b9, b10, b11, b12, b13, b14] ∧
      ∀ c ∈ [b1, b2, b3, b4, b5, b6, b7, b8, b9, b10, b11, b12, b13, b14], isDigitChar c = true := by
  simp only [fullmatchPattern, Bool.or_eq_true] at hm
  rcases hm with hm | hm
  · exact masked_filter s hm
  · obtain ⟨hf, hlen, hall⟩ := unmasked_filter s hm
    obtain ⟨b1, b2, b3, b4, b5, b6, b7, b8, b9, b10, b11, b12, b13, b14, rfl⟩ :=
      exists_of_length14 s hlen
    exact ⟨b1, b2, b3, b4, b5, b6, b7, b8, b9, b10, b11, b12, b13, b14, hf, hall⟩

lemma validator_eq_of_format (s : List Char)
    (b1 b2 b3 b4 b5 b6 b7 b8 b9 b10 b11 b12 b13 b14 : Char)
    (hm : fullmatchPattern s = true)
    (hns : cnpj_format s = [b1, b2, b3, b4, b5, b6, b7, b8, b9, b10, b11, b12, b13, b14])
    (hall : ∀ c ∈ [b1, b2, b3, b4, b5, b6, b7, b8, b9, b10, b11, b12, b13, b14],
      isDigitChar c = true) :
    validator_cnpj s =
      some (!([b1, b2, b3, b4, b5, b6, b7, b8, b9, b10, b11, b12, b13, b14] ==
                List.replicate 14 b1) &&
            ([b13, b14] ==
              specSuffix ([b1, b2, b3, b4, b5, b6, b7, b8, b9, b10, b11, b12].map digitVal))) :=
  validator_eq_explicit s b1 b2 b3 b4 b5 b6 b7 b8 b9 b10 b11 b12 b13 b14 hm hns
    (hall b1 (by simp)) (hall b2 (by simp)) (hall b3 (by simp)) (hall b4 (by simp))
    (hall b5 (by simp)) (hall b6 (by simp)) (hall b7 (by simp)) (hall b8 (by simp))
    (hall b9 (by simp)) (hall b10 (by simp)) (hall b11 (by simp)) (hall b12 (by simp))
    (hall b13 (by simp)) (hall b14 (by simp))

lemma exists_replicate_iff (b1 b2 b3 b4 b5 b6 b7 b8 b9 b10 b11 b12 b13 b14 : Char) :
    (∃ x, [b1, b2, b3, b4, b5, b6, b7, b8, b9, b10, b11, b12, b13, b14] =
      List.replicate 14 x) ↔
    [b1, b2, b3, b4, b5, b6, b7, b8, b9, b10, b11, b12, b13, b14] =
      List.replicate 14 b1 := by
  constructor
  · rintro ⟨x, hx⟩
    have hrep : List.replicate 14 x = [x, x, x, x, x, x, x, x, x, x, x, x, x, x] := rfl
    have hrep1 : List.replicate 14 b1 =
      [b1, b1, b1, b1, b1, b1, b1, b1, b1, b1, b1, b1, b1, b1] := rfl
    rw [hrep] at hx
    simp only [List.cons.injEq, and_true] at hx
    obtain ⟨e1, e2, e3, e4, e5, e6, e7, e8, e9, e10, e11, e12, e13, e14⟩ := hx
    subst e1
    rw [hrep1, e2, e3, e4, e5, e6, e7, e8, e9, e10, e11, e12, e13, e14]
  · exact fun h => ⟨b1, h⟩

lemma fullmatch_false_validator (s : List Char) (hm : fullmatchPattern s = false) :
    validator_cnpj s = some false := by
  simp [validator_cnpj, hm]

lemma validator_true_iff (s : List Char) :
    validator_cnpj s = some true ↔
      (fullmatchPattern s = true ∧
       (¬ ∃ x, cnpj_format s = List.replicate 14 x) ∧
       (cnpj_format s).drop 12 =
         specSuffix (((cnpj_format s).take 12).map digitVal)) := by
  by_cases hm : fullmatchPattern s = true
  · obtain ⟨b1, b2, b3, b4, b5, b6, b7, b8, b9, b10, b11, b12, b13, b14, hns, hall⟩ :=
      fullmatch_digits s hm
    rw [validator_eq_of_format s b1 b2 b3 b4 b5 b6 b7 b8 b9 b10 b11 b12 b13 b14 hm hns hall, hns]
    have htk : List.take 12 [b1, b2, b3, b4, b5, b6, b7, b8, b9, b10, b11, b12, b13, b14] =
        [b1, b2, b3, b4, b5, b6, b7, b8, b9, b10, b11, b12] := rfl
    have hdp : List.drop 12 [b1, b2, b3, b4, b5, b6, b7, b8, b9, b10, b11, b12, b13, b14] =
        [b13, b14] := rfl
    rw [htk, hdp, exists_replicate_iff b1 b2 b3 b4 b5 b6 b7 b8 b9 b10 b11 b12 b13 b14]
    simp only [Option.some.injEq, Bool.and_eq_true, Bool.not_eq_true', beq_eq_false_iff_ne,
      beq_iff_eq, hm, true_and, ne_eq]
  · have hm' : fullmatchPattern s = false := by simpa using hm
    rw [fullmatch_false_validator s hm']
    simp [hm']

lemma validator_isSome (s : List Char) : ∃ b, validator_cnpj s = some b := by
  by_cases hm : fullmatchPattern s = true
  · obtain ⟨b1, b2, b3, b4, b5, b6, b7, b8, b9, b10, b11, b12, b13, b14, hns, hall⟩ :=
      fullmatch_digits s hm
    exact ⟨_, validator_eq_of_format s b1 b2 b3 b4 b5 b6 b7 b8 b9 b10 b11 b12 b13 b14 hm hns hall⟩
  · have hm' : fullmatchPattern s = false := by simpa using hm
    exact ⟨false, fullmatch_false_validator s hm'⟩

lemma digits_unmasked (l : List Char) (hlen : l.length = 14)
    (hall : ∀ c ∈ l, isDigitChar c = true) : fullmatchPattern l = true := by
  have hum : matchesUnmasked l = true := by
    simp only [matchesUnmasked, Bool.and_eq_true, beq_iff_eq, List.all_eq_true]
    exact ⟨hlen, hall⟩
  simp [fullmatchPattern, hum]

lemma calc_digit_checkdigit (p : List Char) (hall : ∀ c ∈ p, isDigitChar c = true)
    (hlen : p.length = 12 ∨ p.length = 13) :
    calc_digit p = some [Char.ofNat (48 + specCheckDigit (p.map digitVal))] := by
  rcases hlen with h | h
  · obtain ⟨b1, b2, b3, b4, b5, b6, b7, b8, b9, b10, b11, b12, rfl⟩ :=
      exists_of_length12 p h
    exact calc_digit_spec12 b1 b2 b3 b4 b5 b6 b7 b8 b9 b10 b11 b12
      (hall _ (by simp)) (hall _ (by simp)) (hall _ (by simp)) (hall _ (by simp))
      (hall _ (by simp)) (hall _ (by simp)) (hall _ (by simp)) (hall _ (by simp))
      (hall _ (by simp)) (hall _ (by simp)) (hall _ (by simp)) (hall _ (by simp))
  · obtain ⟨b1, b2, b3, b4, b5, b6, b7, b8, b9, b10, b11, b12, b13, rfl⟩ :=
      exists_of_length13 p h
    exact calc_digit_spec13 b1 b2 b3 b4 b5 b6 b7 b8 b9 b10 b11 b12 b13
      (hall _ (by simp)) (hall _ (by simp)) (hall _ (by simp)) (hall _ (by simp))
      (hall _ (by simp)) (hall _ (by simp)) (hall _ (by simp)) (hall _ (by simp))
      (hall _ (by simp)) (hall _ (by simp)) (hall _ (by simp)) (hall _ (by simp))
      (hall _ (by simp))

lemma validator_format_invariant (s : List Char) (hm : fullmatchPattern s = true) :
    validator_cnpj s = validator_cnpj (cnpj_format s) := by
  obtain ⟨b1, b2, b3, b4, b5, b6, b7, b8, b9, b10, b11, b12, b13, b14, hns, hall⟩ :=
    fullmatch_digits s hm
  have hm2 : fullmatchPattern [b1, b2, b3, b4, b5, b6, b7, b8, b9, b10, b11, b12, b13, b14] =
      true := digits_unmasked _ rfl hall
  have hf : cnpj_format [b1, b2, b3, b4, b5, b6, b7, b8, b9, b10, b11, b12, b13, b14] =
      [b1, b2, b3, b4, b5, b6, b7, b8, b9, b10, b11, b12, b13, b14] :=
    List.filter_eq_self.mpr hall
  rw [validator_eq_of_format s b1 b2 b3 b4 b5 b6 b7 b8 b9 b10 b11 b12 b13 b14 hm hns hall, hns,
    validator_eq_of_format _ b1 b2 b3 b4 b5 b6 b7 b8 b9 b10 b11 b12 b13 b14 hm2 hf hall]

/-- C1: for every input string `s`, `validator_cnpj s` returns `true` exactly
when `s` matches one of the two regex shapes (masked `DD.DDD.DDD/DDDD-DD` or
fourteen consecutive digits), the fourteen extracted digits are not all
identical, and the last two characters of the normalized 14-digit string are
the two check digits computed from the first twelve digits by the spec's
Step 3/Step 4 procedure; every other string yields `false`. -/
theorem claim_C1_valid_iff (s : List Char) :
    validator_cnpj s = some true ↔
      (fullmatchPattern s = true ∧
       (¬ ∃ x, cnpj_format s = List.replicate 14 x) ∧
       (cnpj_format s).drop 12 =
         specSuffix (((cnpj_format s).take 12).map digitVal)) :=
  validator_true_iff s

/-- C2: for every digit string of length 12 or 13, `calc_digit` returns the
single character of the digit obtained by right-aligning the weight table
`[6,5,4,3,2,9,8,7,6,5,4,3,2]` against the input, summing the products,
reducing modulo 11, and mapping remainders 0 and 1 to 0 and any other
remainder `r` to `11 - r` (the procedure embodied in `specCheckDigit`). -/
theorem claim_C2_calc_digit (p : List Char) (hall : ∀ c ∈ p, isDigitChar c = true)
    (hlen : p.length = 12 ∨ p.length = 13) :
    calc_digit p = some [Char.ofNat (48 + specCheckDigit (p.map digitVal))] :=
  calc_digit_checkdigit p hall hlen

/-- C2 witness: the theorem applied to the concrete 12-digit base
`112223330001`. -/
theorem claim_C2_witness :
    calc_digit "112223330001".data =
      some [Char.ofNat (48 + specCheckDigit ("112223330001".data.map digitVal))] :=
  claim_C2_calc_digit "112223330001".data (by decide) (Or.inl (by decide))

/-- C3 counterexample: the all-zero canonical CNPJ has a matching check-digit
suffix, yet `validator_cnpj` rejects it (the degenerate all-identical rule
fires first), so validity of a 14-digit string is not equivalent to the
check-digit comparison alone. -/
theorem claim_C3_counterexample :
    "00000000000000".data.length = 14 ∧
    (∀ ch ∈ "00000000000000".data, isDigitChar ch = true) ∧
    ("00000000000000".data).drop 12 =
      specSuffix ((("00000000000000".data).take 12).map digitVal) ∧
    validator_cnpj "00000000000000".data ≠ some true := by decide

/-- C3 (amended): for every 14-character digit-only string `c`,
`validator_cnpj c` returns `true` iff the fourteen digits are not all
identical and the last two digits of `c` equal the two check digits computed
from the first twelve digits by the spec's algorithm. -/
theorem claim_C3_amended (c : List Char) (h14 : c.length = 14)
    (hd : ∀ ch ∈ c, isDigitChar ch = true) :
    validator_cnpj c = some true ↔
      ((¬ ∃ x, c = List.replicate 14 x) ∧
       c.drop 12 = specSuffix ((c.take 12).map digitVal)) := by
  have hm : fullmatchPattern c = true := digits_unmasked c h14 hd
  have hf : cnpj_format c = c := List.filter_eq_self.mpr hd
  have h := validator_true_iff c
  rw [hf] at h
  rw [h]
  simp [hm]

/-- C3 witness: the amended equivalence applied to the concrete canonical
CNPJ `11222333000181`. -/
theorem claim_C3_witness :
    validator_cnpj "11222333000181".data = some true ↔
      ((¬ ∃ x, "11222333000181".data = List.replicate 14 x) ∧
       "11222333000181".data.drop 12 =
         specSuffix (("11222333000181".data.take 12).map digitVal)) :=
  claim_C3_amended "11222333000181".data (by decide) (by decide)

/-- C4: for every string `s`, `cnpj_format s` is exactly the subsequence of
the digit characters of `s`, in their original order: it equals filtering
`s` by the predicate "is an ASCII digit", it is a sublist of `s`, and all of
its characters lie between `'0'` and `'9'`. -/
theorem claim_C4_normalize (s : List Char) :
    cnpj_format s = s.filter (fun c => decide ('0' ≤ c ∧ c ≤ '9')) ∧
    List.Sublist (cnpj_format s) s ∧
    ∀ c ∈ cnpj_format s, ('0' ≤ c ∧ c ≤ '9') := by
  have hp : ∀ c : Char, isDigitChar c = decide ('0' ≤ c ∧ c ≤ '9') := by
    intro c
    by_cases h1 : '0' ≤ c <;> by_cases h2 : c ≤ '9' <;> simp [isDigitChar, h1, h2]
  refine ⟨?_, List.filter_sublist s, ?_⟩
  · have hfc : ∀ t : List Char,
        t.filter isDigitChar = t.filter (fun c => decide ('0' ≤ c ∧ c ≤ '9')) := by
      intro t
      induction t with
      | nil => rfl
      | cons a t ih => simp only [List.filter_cons, hp a, ih]
    exact hfc s
  · intro c hc
    have hd : isDigitChar c = true := (List.mem_filter.mp hc).2
    simpa [isDigitChar, Bool.and_eq_true, decide_eq_true_eq] using hd

/-- C5: for every string accepted by the structural check, validity depends
only on the extracted digits: `validator_cnpj` gives the same answer on the
original string and on its normalized digit-only form. -/
theorem claim_C5_mask_independent (s : List Char) (hm : fullmatchPattern s = true) :
    validator_cnpj s = validator_cnpj (cnpj_format s) :=
  validator_format_invariant s hm

/-- C5 witness: the theorem applied to the masked fixture
`11.222.333/0001-81`. -/
theorem claim_C5_witness :
    validator_cnpj "11.222.333/0001-81".data =
      validator_cnpj (cnpj_format "11.222.333/0001-81".data) :=
  claim_C5_mask_independent "11.222.333/0001-81".data (by decide)

/-- C6: normalization is idempotent: filtering an already digit-only string
changes nothing. -/
theorem claim_C6_idempotent (s : List Char) :
    cnpj_format (cnpj_format s) = cnpj_format s :=
  List.filter_eq_self.mpr (fun _ ha => (List.mem_filter.mp ha).2)

/-- C7: the concrete fixtures of the spec: the masked and unmasked forms of
`11222333000181` are valid, the same base with suffix `00` is invalid, and
normalization of the masked form yields the unmasked digits. -/
theorem claim_C7_fixtures :
    validator_cnpj "11.222.333/0001-81".data = some true ∧
    validator_cnpj "11222333000181".data = some true ∧
    validator_cnpj "11.222.333/0001-00".data = some false ∧
    cnpj_format "11.222.333/0001-81".data = "11222333000181".data := by
  refine ⟨by decide, by decide, by decide, by decide⟩

/-- C8: `validator_cnpj` never signals an error on any input: every run of
the embedded Python code (whose indexing and `int()` conversions are
modelled in the `Option` monad) terminates normally with a boolean, so
malformed input is reported only through the returned value. -/
theorem claim_C8_total (s : List Char) :
    validator_cnpj s = some true ∨ validator_cnpj s = some false := by
  rcases validator_isSome s with ⟨b, hb⟩
  cases b
  · exact Or.inr hb
  · exact Or.inl hb

/-- C9: every string that passes the structural check normalizes to exactly
fourteen digit characters, so the all-identical comparison against a
14-character string and the 12/2 slices inside `validator_cnpj` are
well-defined. -/
theorem claim_C9_normalized_length (s : List Char) (hm : fullmatchPattern s = true) :
    (cnpj_format s).length = 14 := by
  obtain ⟨b1, b2, b3, b4, b5, b6, b7, b8, b9, b10, b11, b12, b13, b14, hns, -⟩ :=
    fullmatch_digits s hm
  rw [hns]
  rfl

/-- C9 witness: the theorem applied to the masked fixture. -/
theorem claim_C9_witness : (cnpj_format "11.222.333/0001-81".data).length = 14 :=
  claim_C9_normalized_length "11.222.333/0001-81".data (by decide)

/-- C10: on every digit string of length 12 or 13, `calc_digit` produces a
one-character string whose character is an ASCII digit (`'0'`–`'9'`); hence
the expected suffix built from two such results always has exactly two
characters. -/
theorem claim_C10_single_digit (p : List Char) (hall : ∀ c ∈ p, isDigitChar c = true)
    (hlen : p.length = 12 ∨ p.length = 13) :
    ∃ c, calc_digit p = some [c] ∧ isDigitChar c = true :=
  ⟨Char.ofNat (48 + specCheckDigit (p.map digitVal)),
   calc_digit_checkdigit p hall hlen,
   digitChar_isDigit _ (specCheckDigit_lt _)⟩

/-- C10 witness: the theorem applied to the concrete 13-digit input
`1122233300018`. -/
theorem claim_C10_witness :
    ∃ c, calc_digit "1122233300018".data = some [c] ∧ isDigitChar c = true :=
  claim_C10_single_digit "1122233300018".data (by decide) (Or.inr (by decide))
